import Mathlib

/- Verification development for the "does she like me" message-analysis
   program.  The embedding covers the canonical message model, the eight
   engagement-signal computations and their weighted aggregation
   (message_analyzer.py), the format parsers and the parser selector
   (message_parsers.py).

   Modelling conventions.  Timestamps and scores are exact rationals
   (Python floats / datetimes, with timestamps counted in seconds).
   Calls into external libraries enter as explicit function parameters:
   TextBlob's sentiment polarity (`polarity`), the emoji scanner
   (`emojiList`), pandas' sample standard deviation over daily counts
   (`dailyStd`), the re module's WhatsApp line match (`waMatch`),
   datetime.strptime (`strptimeQ`, `Option.none` meaning the attempt
   raised) and the wall clock (`now`).  In-place mutation of the pandas
   frame is made explicit: each signal returns the score together with
   the frame as it is left behind. -/

namespace DSLM

/-- Canonical message row: text, timestamp (seconds), sender, plus the
`time_gap` column (hours) that `analyze_conversation_initiation` writes
into the frame in place; it is `Option.none` until that column is
written (pandas NaN in the first row). -/
structure Msg where
  text : String
  timestamp : ℚ
  sender : String
  time_gap : Option ℚ
deriving DecidableEq

/-- Shorthand for building an input message (no derived column yet). -/
def mkMsg (text : String) (ts : ℚ) (sender : String) : Msg :=
  ⟨text, ts, sender, Option.none⟩

/-- Dataframe of messages, in row order. -/
abbrev DF := List Msg

/-- np.mean over rationals (callers guard against the empty list). -/
def qMean (l : List ℚ) : ℚ := l.sum / (l.length : ℚ)

/-- Python's `sub in s` on character lists: `needle` occurs contiguously. -/
def hasSub : List Char → List Char → Bool
  | needle, [] => needle.isEmpty
  | needle, c :: rest => needle.isPrefixOf (c :: rest) || hasSub needle rest

/-- Python's `sub in s` substring test for strings. -/
def strContains (s sub : String) : Bool := hasSub sub.toList s.toList

/-- Python's str.lower, character-wise. -/
def strLower (s : String) : String := String.mk (s.toList.map Char.toLower)

/-- Python's str.endswith. -/
def strEndsWith (s suffix : String) : Bool := suffix.toList.isSuffixOf s.toList

/- ===== MessageAnalyzer: the eight signal computations ===== -/

/-- Piecewise response-time curve of `analyze_response_time` (average
minutes to score, before the final clamp). -/
def responseScoreOfAvg (a : ℚ) : ℚ :=
  if a < 5 then 100
  else if a < 30 then 100 - (a - 5) * (8/10)
  else if a < 60 then 80 - (a - 30) * (67/100)
  else if a < 180 then 60 - (a - 60) * (17/100)
  else max 20 (40 - (a - 180) / 60)

/-- Response pairs: a your-message immediately followed by a
target-message; elapsed minutes between the two rows. -/
def responsePairs (df : DF) (target : String) : List ℚ :=
  (df.zip df.tail).filterMap fun p =>
    if p.1.sender ≠ target ∧ p.2.sender = target then
      some ((p.2.timestamp - p.1.timestamp) / 60)
    else Option.none

/-- MessageAnalyzer.analyze_response_time. -/
def analyze_response_time (df : DF) (target : String) : ℚ × DF :=
  let rts := responsePairs df target
  if rts = [] then (50, df)
  else (min 100 (max 0 (responseScoreOfAvg (qMean rts))), df)

/-- Piecewise message-length curve of `analyze_message_length`. -/
def lengthScoreOfRatio (r : ℚ) : ℚ :=
  if r ≥ 8/10 then 100
  else if r ≥ 1/2 then 70 + (r - 1/2) * 100
  else max 30 (r * 140)

/-- MessageAnalyzer.analyze_message_length. -/
def analyze_message_length (df : DF) (target : String) : ℚ × DF :=
  let their := (df.filter (fun m => m.sender == target)).map (fun m => (m.text.length : ℚ))
  let your := (df.filter (fun m => !(m.sender == target))).map (fun m => (m.text.length : ℚ))
  if their.length = 0 then (0, df)
  else
    let their_avg := qMean their
    let your_avg := if your.length > 0 then qMean your else 50
    let ratio := their_avg / max your_avg 1
    (min 100 (lengthScoreOfRatio ratio), df)

/-- The fixed positive-emoji set of `analyze_emoji_usage`. -/
def positive_emojis : List String :=
  ["❤️", "💕", "💖", "😊", "😍", "🥰", "😘", "💗", "💓", "💝",
   "😄", "😁", "🙂", "😉", "🥺", "✨", "💫", "⭐"]

/-- MessageAnalyzer.analyze_emoji_usage; `emojiList` stands for
emoji.emoji_list, listing the emoji occurrences of a message. -/
def analyze_emoji_usage (emojiList : String → List String) (df : DF) (target : String) :
    ℚ × DF :=
  let their := (df.filter (fun m => m.sender == target)).map (fun m => m.text)
  if their.length = 0 then (0, df)
  else
    let emoji_count := (their.map (fun m => (emojiList m).length)).sum
    let positive_count :=
      (their.map (fun m => ((emojiList m).filter (fun e => positive_emojis.contains e)).length)).sum
    let avg_emojis := (emoji_count : ℚ) / (their.length : ℚ)
    let positive_ratio := (positive_count : ℚ) / (max (emoji_count : ℚ) 1)
    let base_score : ℚ :=
      if avg_emojis ≥ 1/2 then 90
      else if avg_emojis ≥ 3/10 then 70
      else if avg_emojis ≥ 1/10 then 50
      else 30
    (min 100 (base_score + positive_ratio * 20), df)

/-- Piecewise question-asking curve of `analyze_question_asking`. -/
def questionScoreOfRatio (r : ℚ) : ℚ :=
  if 1/5 ≤ r ∧ r ≤ 2/5 then 100
  else if 1/10 ≤ r ∧ r < 1/5 then 50 + (r - 1/10) * 500
  else if 2/5 < r ∧ r ≤ 3/5 then 100 - (r - 2/5) * 100
  else max 20 (60 * r)

/-- MessageAnalyzer.analyze_question_asking. -/
def analyze_question_asking (df : DF) (target : String) : ℚ × DF :=
  let their := (df.filter (fun m => m.sender == target)).map (fun m => m.text)
  if their.length = 0 then (0, df)
  else
    let question_count := (their.filter (fun m => m.contains '?')).length
    (min 100 (questionScoreOfRatio ((question_count : ℚ) / (their.length : ℚ))), df)

/-- Rows after the first, with the inter-arrival gap (hours) written in. -/
def gapsAux : Msg → List Msg → List Msg
  | _, [] => []
  | prev, m :: rest =>
    { m with time_gap := some ((m.timestamp - prev.timestamp) / 3600) } :: gapsAux m rest

/-- The in-place column assignment `df['time_gap'] = df['timestamp'].diff()...`:
first row gets NaN (`Option.none`), each later row its gap in hours. -/
def setTimeGaps : DF → DF
  | [] => []
  | m :: rest => { m with time_gap := Option.none } :: gapsAux m rest

/-- Forget the derived `time_gap` column (the underlying message data). -/
def stripGap (m : Msg) : Msg := { m with time_gap := Option.none }

/-- Conversation-start test `df['time_gap'] > 4` (NaN compares false). -/
def isStart (m : Msg) : Bool :=
  match m.time_gap with
  | some g => decide (g > 4)
  | _ => false

/-- Piecewise initiation curve of `analyze_conversation_initiation`. -/
def initiationScoreOfRatio (r : ℚ) : ℚ :=
  if 2/5 ≤ r ∧ r ≤ 3/5 then 100
  else if 3/10 ≤ r ∧ r < 2/5 then 70 + (r - 3/10) * 300
  else if 3/5 < r ∧ r ≤ 7/10 then 100 - (r - 3/5) * 100
  else max 30 (r * 150)

/-- MessageAnalyzer.analyze_conversation_initiation.  This is the one
signal that writes into the caller's frame (the `time_gap` column). -/
def analyze_conversation_initiation (df : DF) (target : String) : ℚ × DF :=
  if df.length < 2 then (50, df)
  else
    let df2 := setTimeGaps df
    let starts := df2.filter isStart
    if starts.length = 0 then (50, df2)
    else
      let their_initiations := (starts.filter (fun m => m.sender == target)).length
      (min 100 (initiationScoreOfRatio ((their_initiations : ℚ) / (starts.length : ℚ))), df2)

/-- The fixed enthusiasm marker list of `analyze_enthusiasm`. -/
def enthusiasm_markers : List String :=
  ["!", "haha", "lol", "omg", "wow", "love", "amazing", "awesome"]

/-- MessageAnalyzer.analyze_enthusiasm; `polarity` stands for TextBlob's
sentiment polarity (documented range -1..1).  Note: the sum of the two
sub-scores is returned without a final clamp. -/
def analyze_enthusiasm (polarity : String → ℚ) (df : DF) (target : String) : ℚ × DF :=
  let their := (df.filter (fun m => m.sender == target)).map (fun m => m.text)
  if their.length = 0 then (0, df)
  else
    let avg_sentiment := qMean (their.map polarity)
    let enthusiasm_count :=
      (their.map (fun m => (enthusiasm_markers.filter (fun mk => strContains (strLower m) mk)).length)).sum
    let enthusiasm_ratio := (enthusiasm_count : ℚ) / (their.length : ℚ)
    ((avg_sentiment + 1) / 2 * 60 + min 40 (enthusiasm_ratio * 100), df)

/-- Calendar day of a timestamp (`.dt.date` on the naive timeline). -/
def dateOf (ts : ℚ) : ℤ := ⌊ts / 86400⌋

/-- Daily message counts: `groupby(date).size()`. -/
def dailyCounts (their : DF) : List ℕ :=
  let dates := their.map (fun m => dateOf m.timestamp)
  dates.dedup.map (fun d => dates.count d)

/-- Piecewise consistency curve of `analyze_consistency` (note: the
source returns this value without a min-100 clamp). -/
def consistencyScoreOfCv (cv : ℚ) : ℚ :=
  if cv < 1/2 then 100
  else if cv < 1 then 100 - (cv - 1/2) * 60
  else max 30 (70 - cv * 20)

/-- MessageAnalyzer.analyze_consistency; `dailyStd` stands for pandas'
sample standard deviation of the daily counts (a nonnegative real). -/
def analyze_consistency (dailyStd : List ℕ → ℚ) (df : DF) (target : String) : ℚ × DF :=
  let their := df.filter (fun m => m.sender == target)
  if their.length < 5 then (50, df)
  else
    let counts := dailyCounts their
    if counts.length < 2 then (70, df)
    else
      let mu := qMean (counts.map (fun n => (n : ℚ)))
      (consistencyScoreOfCv (dailyStd counts / mu), df)

/-- Piecewise reciprocity curve of `analyze_reciprocity`. -/
def reciprocityScoreOfRatio (r : ℚ) : ℚ :=
  if 4/5 ≤ r ∧ r ≤ 6/5 then 100
  else if 1/2 ≤ r ∧ r < 4/5 then 60 + (r - 1/2) * 133
  else if 6/5 < r ∧ r ≤ 3/2 then 100 - (r - 6/5) * 50
  else max 20 (min 100 (r * 70))

/-- MessageAnalyzer.analyze_reciprocity. -/
def analyze_reciprocity (df : DF) (target : String) : ℚ × DF :=
  if df.length < 2 then (50, df)
  else
    let their_count := (df.filter (fun m => m.sender == target)).length
    let your_count := df.length - their_count
    if your_count = 0 then (if their_count > 0 then (100, df) else (0, df))
    else (reciprocityScoreOfRatio ((their_count : ℚ) / (your_count : ℚ)), df)

/-- The eight signal scores, in the insertion order of the
`engagement_signals` mapping. -/
structure Signals where
  response_time : ℚ
  message_length : ℚ
  emoji_usage : ℚ
  question_asking : ℚ
  conversation_initiation : ℚ
  enthusiasm : ℚ
  consistency : ℚ
  reciprocity : ℚ
deriving DecidableEq

/-- MessageAnalyzer.calculate_overall_interest: runs the eight signals in
source order on the (mutably shared) frame and takes the weighted sum
with the fixed weights.  Returns the overall score and breakdown together
with the frame as left behind. -/
def calculate_overall_interest (polarity : String → ℚ) (emojiList : String → List String)
    (dailyStd : List ℕ → ℚ) (df : DF) (target : String) : (ℚ × Signals) × DF :=
  let r1 := analyze_response_time df target
  let r2 := analyze_message_length r1.2 target
  let r3 := analyze_emoji_usage emojiList r2.2 target
  let r4 := analyze_question_asking r3.2 target
  let r5 := analyze_conversation_initiation r4.2 target
  let r6 := analyze_enthusiasm polarity r5.2 target
  let r7 := analyze_consistency dailyStd r6.2 target
  let r8 := analyze_reciprocity r7.2 target
  let overall := r1.1 * (18/100) + r2.1 * (12/100) + r3.1 * (9/100) + r4.1 * (10/100)
    + r5.1 * (15/100) + r6.1 * (15/100) + r7.1 * (8/100) + r8.1 * (13/100)
  ((overall, ⟨r1.1, r2.1, r3.1, r4.1, r5.1, r6.1, r7.1, r8.1⟩), r8.2)

/-- The overall weighted percentage (before display rounding). -/
def overall_score (polarity : String → ℚ) (emojiList : String → List String)
    (dailyStd : List ℕ → ℚ) (df : DF) (target : String) : ℚ :=
  (calculate_overall_interest polarity emojiList dailyStd df target).1.1

/- ===== message_parsers.py: the format parsers ===== -/

/-- JSON values as the parsers see them after json.load. -/
inductive Json where
  | null : Json
  | bool (b : Bool) : Json
  | num (q : ℚ) : Json
  | str (s : String) : Json
  | arr (elems : List Json) : Json
  | obj (fields : List (String × Json)) : Json

/-- Python exceptions that can escape a parser. -/
inductive PyErr where
  | keyError (k : String) : PyErr
  | typeError : PyErr
deriving DecidableEq

/-- Dict lookup on a JSON object (first binding of the key). -/
def jLookup (k : String) : List (String × Json) → Option Json
  | [] => Option.none
  | f :: rest => if f.1 == k then some f.2 else jLookup k rest

/-- Python's `needle in x` for a JSON value `x`: key membership for a
dict, element equality for a list, substring test for a string, and a
TypeError for non-containers. -/
def pyContainsStr (needle : String) : Json → Except PyErr Bool
  | .obj fields => .ok (jLookup needle fields).isSome
  | .arr elems => .ok (elems.any (fun e => match e with | .str s => s == needle | _ => false))
  | .str s => .ok (strContains s needle)
  | _ => .error .typeError

/-- One entry of a Facebook Messenger export: kept only if it has a
`content` field; `timestamp_ms` (milliseconds) and `sender_name` are then
indexed directly, so an entry that has content but lacks either key
raises a KeyError.  Entries whose payloads are not of the canonical
types (string content/sender, numeric timestamp) are outside the
modelled domain and mapped to a distinguishable TypeError. -/
def fb_entry (j : Json) : Except PyErr (Option Msg) :=
  match pyContainsStr "content" j with
  | .error e => .error e
  | .ok false => .ok Option.none
  | .ok true =>
    match j with
    | .obj f =>
      match jLookup "content" f, jLookup "timestamp_ms" f with
      | some (.str text), some (.num ts) =>
        match jLookup "sender_name" f with
        | some (.str sender) => .ok (some ⟨text, ts / 1000, sender, Option.none⟩)
        | some _ => .error .typeError
        | Option.none => .error (.keyError "sender_name")
      | _, Option.none => .error (.keyError "timestamp_ms")
      | _, some _ => .error .typeError
    | _ => .error .typeError

/-- The entry loop of FacebookMessengerParser.parse: the first exception
aborts the whole parse, entries without content are dropped. -/
def fb_mapEntries : List Json → Except PyErr (List Msg)
  | [] => .ok []
  | j :: rest =>
    match fb_entry j with
    | .error e => .error e
    | .ok o =>
      match fb_mapEntries rest with
      | .error e => .error e
      | .ok ms => .ok (match o with | some m => m :: ms | _ => ms)

/-- FacebookMessengerParser.parse on the loaded JSON document. -/
def fb_parse (data : Json) : Except PyErr (List Msg) :=
  match pyContainsStr "messages" data with
  | .error e => .error e
  | .ok false => .ok []
  | .ok true =>
    match data with
    | .obj f =>
      match jLookup "messages" f with
      | some (.arr msgs) => fb_mapEntries msgs
      | _ => .error .typeError
    | _ => .error .typeError

/-- InstagramMessengerParser.parse: delegates to the Facebook parser. -/
def instagram_parse (data : Json) : Except PyErr (List Msg) := fb_parse data

/-- Loosely-typed timestamp value reaching a `_parse_timestamp` helper:
an already-parsed datetime, a number, a string, or Python's None. -/
inductive TsValue where
  | dt (t : ℚ) : TsValue
  | num (x : ℚ) : TsValue
  | str (s : String) : TsValue
  | missing : TsValue
deriving DecidableEq

/-- The fixed format priority list of iMessageParser._parse_timestamp. -/
def imessage_formats : List String :=
  ["%Y-%m-%d %H:%M:%S", "%Y-%m-%dT%H:%M:%S", "%Y-%m-%d %H:%M:%S.%f",
   "%m/%d/%Y %H:%M:%S", "%d/%m/%Y %H:%M:%S"]

/-- The fixed format priority list of GenericJSONParser._parse_timestamp. -/
def generic_formats : List String :=
  ["%Y-%m-%d %H:%M:%S", "%Y-%m-%dT%H:%M:%S", "%Y-%m-%d %H:%M:%S.%f",
   "%Y-%m-%dT%H:%M:%S.%fZ"]

/-- Try strptime with each format in order, first success wins. -/
def tryFormats (strptimeQ : String → String → Option ℚ) (s : String) : List String → Option ℚ
  | [] => Option.none
  | f :: rest =>
    match strptimeQ s f with
    | some t => some t
    | _ => tryFormats strptimeQ s rest

/-- iMessageParser._parse_timestamp: datetimes pass through, strings try
the format list, anything else (numbers, None) makes every strptime
attempt raise, so it falls through to datetime.now(). -/
def imessage_parse_timestamp (strptimeQ : String → String → Option ℚ) (now : ℚ) :
    TsValue → ℚ
  | .dt t => t
  | .str s => (tryFormats strptimeQ s imessage_formats).getD now
  | _ => now

/-- GenericJSONParser._parse_timestamp: datetimes pass through, numbers
are seconds-based Unix epoch, anything else is stringified and tried
against the format list, defaulting to datetime.now(). -/
def generic_parse_timestamp (strptimeQ : String → String → Option ℚ) (now : ℚ) :
    TsValue → ℚ
  | .dt t => t
  | .num x => x
  | .str s => (tryFormats strptimeQ s generic_formats).getD now
  | .missing => (tryFormats strptimeQ "None" generic_formats).getD now

/-- Chained `msg.get(k1, msg.get(k2, ...))`: the first present key wins. -/
def firstPresent (f : List (String × Json)) : List String → Option Json
  | [] => Option.none
  | k :: ks =>
    match jLookup k f with
    | some v => some v
    | _ => firstPresent f ks

/-- String payload with a default (non-string payloads are outside the
modelled domain: Python would retain the raw object). -/
def strOr (o : Option Json) (dflt : String) : String :=
  match o with
  | some (.str s) => s
  | _ => dflt

/-- View a JSON payload as the loosely-typed timestamp it hands to
`_parse_timestamp` (a Python bool counts as numeric). -/
def jTs (o : Option Json) : TsValue :=
  match o with
  | some (.num q) => .num q
  | some (.bool b) => .num (if b then 1 else 0)
  | some (.str s) => .str s
  | _ => .missing

/-- One JSON-array row of iMessageParser.parse: text from `text` only
(default ''), timestamp from `timestamp` only, sender from `sender` and
then `from`, defaulting to "Unknown". -/
def imessage_json_row (strptimeQ : String → String → Option ℚ) (now : ℚ)
    (f : List (String × Json)) : Msg :=
  { text := strOr (jLookup "text" f) "",
    timestamp := imessage_parse_timestamp strptimeQ now (jTs (jLookup "timestamp" f)),
    sender := strOr (firstPresent f ["sender", "from"]) "Unknown",
    time_gap := Option.none }

/-- Lookup in a csv.DictReader row (first binding of the column). -/
def csvLookup (r : List (String × String)) (k : String) : Option String :=
  match r with
  | [] => Option.none
  | p :: rest => if p.1 == k then some p.2 else csvLookup rest k

/-- Chained `row.get(k1, row.get(k2, ...))` on a CSV row. -/
def csvFirst (r : List (String × String)) : List String → Option String
  | [] => Option.none
  | k :: ks =>
    match csvLookup r k with
    | some v => some v
    | _ => csvFirst r ks

/-- One CSV row of iMessageParser.parse: text from `text` then
`message`, timestamp from `timestamp` then `date`, sender from `sender`
then `from` defaulting to "Unknown". -/
def imessage_csv_row (strptimeQ : String → String → Option ℚ) (now : ℚ)
    (r : List (String × String)) : Msg :=
  { text := (csvFirst r ["text", "message"]).getD "",
    timestamp := imessage_parse_timestamp strptimeQ now
      (match csvFirst r ["timestamp", "date"] with | some s => .str s | _ => .missing),
    sender := (csvFirst r ["sender", "from"]).getD "Unknown",
    time_gap := Option.none }

/-- One row of GenericJSONParser.parse: aliases text/message/content,
timestamp/date/time, sender/from/author. -/
def generic_row (strptimeQ : String → String → Option ℚ) (now : ℚ)
    (f : List (String × Json)) : Msg :=
  { text := strOr (firstPresent f ["text", "message", "content"]) "",
    timestamp := generic_parse_timestamp strptimeQ now (jTs (firstPresent f ["timestamp", "date", "time"])),
    sender := strOr (firstPresent f ["sender", "from", "author"]) "Unknown",
    time_gap := Option.none }

/-- One line of WhatsAppParser.parse.  `waMatch` stands for re.match of
the WhatsApp line pattern, yielding the (date, time, sender, text)
groups; a line that fails the match, or whose date parses under neither
the day/month primary nor the month/day fallback format, is skipped. -/
def wa_line (waMatch : String → Option (String × String × String × String))
    (strptimeQ : String → String → Option ℚ) (line : String) : Option Msg :=
  match waMatch line with
  | Option.none => Option.none
  | some (d, t, sender, text) =>
    let primary := if (t.splitOn ":").length == 2 then "%d/%m/%Y %H:%M" else "%d/%m/%Y %H:%M:%S"
    match strptimeQ (d ++ " " ++ t) primary with
    | some ts => some ⟨text.trim, ts, sender.trim, Option.none⟩
    | _ =>
      match strptimeQ (d ++ " " ++ t) "%m/%d/%Y %H:%M" with
      | some ts => some ⟨text.trim, ts, sender.trim, Option.none⟩
      | _ => Option.none

/-- WhatsAppParser.parse over the lines of the file: total, line-wise. -/
def wa_parse (waMatch : String → Option (String × String × String × String))
    (strptimeQ : String → String → Option ℚ) (lines : List String) : List Msg :=
  lines.filterMap (wa_line waMatch strptimeQ)

/- ===== message_parsers.py: parser selection ===== -/

/-- The parser classes, as selection results. -/
inductive ParserKind where
  | facebook | instagram | imessage | whatsapp | generic
deriving DecidableEq

/-- Extension-based auto-detection of the parser selector.  `fileJson` is the
result of the peek `json.load` on a `.json` path (`Option.none` when the
file is unreadable or malformed, in which case the bare except falls
through to the Generic parser). -/
def get_parser_auto (file_path : String) (fileJson : Option Json) : ParserKind :=
  if strEndsWith file_path ".txt" then .whatsapp
  else if strEndsWith file_path ".json" then
    match fileJson with
    | some (.obj f) => if (jLookup "messages" f).isSome then .facebook else .generic
    | _ => .generic
  else if strEndsWith file_path ".csv" then .imessage
  else .generic

/-- Parser selection (the source's selector function):
case-insensitive substring dispatch on the platform hint, in source
order, falling through to extension detection (an empty or unmatched
hint never raises). -/
def getParser (platform : Option String) (file_path : String) (fileJson : Option Json) :
    ParserKind :=
  match platform with
  | Option.none => get_parser_auto file_path fileJson
  | some p =>
    let pl := strLower p
    if strContains pl "facebook" || strContains pl "messenger" then .facebook
    else if strContains pl "instagram" || strContains pl "ig" then .instagram
    else if strContains pl "imessage" || strContains pl "apple" then .imessage
    else if strContains pl "whatsapp" then .whatsapp
    else get_parser_auto file_path fileJson

/- ===== MessageAnalyzer.load_messages and the central sort ===== -/

/-- Order on rows used by the central sort: ascending timestamp. -/
def tsLE (a b : Msg) : Prop := a.timestamp ≤ b.timestamp

instance : DecidableRel tsLE :=
  fun a b => inferInstanceAs (Decidable (a.timestamp ≤ b.timestamp))

instance : IsTotal Msg tsLE := ⟨fun a b => le_total a.timestamp b.timestamp⟩

instance : IsTrans Msg tsLE := ⟨fun _ _ _ h h' => le_trans h h'⟩

/-- Contract of `df.sort_values('timestamp')` with the default kind
(quicksort): the result is a permutation of the input sorted ascending by
timestamp.  The default algorithm is documented as not stable, so
nothing more is guaranteed about the order of equal timestamps; the
embedding therefore quantifies over any sorter meeting this contract. -/
def PandasSortContract (sorter : DF → DF) : Prop :=
  ∀ l : DF, (sorter l).Perm l ∧ List.Sorted tsLE (sorter l)

/-- MessageAnalyzer.load_messages: build the frame and sort it by
timestamp (the `pd.to_datetime` conversion is already reflected in the
rational timestamps of `Msg`). -/
def load_messages (sorter : DF → DF) (msgs : DF) : DF := sorter msgs

/-- The stable sort by timestamp: ties keep their input order.  This is
what the spec asserts the central sort to be. -/
def stableSortByTs (l : DF) : DF := List.insertionSort tsLE l

/-- A sorter meeting the pandas contract that reverses the relative
order of equal timestamps: stable-sort the reversed input. -/
def tieReversingSorter (l : DF) : DF := List.insertionSort tsLE l.reverse

/- ===== Concrete instantiations for witnesses and counterexamples ===== -/

/-- Neutral sentiment function (a legitimate TextBlob behaviour). -/
def pol0 : String → ℚ := fun _ => 0

/-- Emoji scanner finding no emoji. -/
def el0 : String → List String := fun _ => []

/-- Zero standard deviation (all daily counts equal). -/
def std0 : List ℕ → ℚ := fun _ => 0

/-- A strptime that rejects every string (every attempt raises). -/
def stq0 : String → String → Option ℚ := fun _ _ => Option.none

/-- A WhatsApp line matcher that matches no line. -/
def waM0 : String → Option (String × String × String × String) := fun _ => Option.none

/-- Two messages, both from "A": the target "B" sent nothing. -/
def exC2 : DF := [mkMsg "a" 0 "A", mkMsg "b" 60 "A"]

/-- Ten messages from "A" and ten from the target "B" (ratio 1.0). -/
def exC2big : DF :=
  List.replicate 10 (mkMsg "a" 0 "A") ++ List.replicate 10 (mkMsg "b" 60 "B")

/-- A your-message answered by the target 45 minutes later. -/
def exC3 : DF := [mkMsg "hi" 0 "A", mkMsg "ok" 2700 "B"]

/-- The spec's example: A at t0, target B two minutes later. -/
def exC3fast : DF := [mkMsg "hello" 0 "A", mkMsg "hey" 120 "B"]

/-- The response-time curve as the claim words it: exact linear segments
between the stated endpoints (5,100)-(30,80)-(60,60)-(180,40).  This
definition follows the spec's words, for comparison with
`responseScoreOfAvg`, which is translated from the source. -/
def respCurveSpec (a : ℚ) : ℚ :=
  if a < 5 then 100
  else if a < 30 then 100 - (a - 5) * (20/25)
  else if a < 60 then 80 - (a - 30) * (20/30)
  else if a < 180 then 60 - (a - 60) * (20/120)
  else max 20 (40 - (a - 180) / 60)

/-- Two messages with equal timestamps, in a recognizable input order. -/
def exC4 : DF := [mkMsg "first" 0 "A", mkMsg "second" 0 "B"]

/-- A structurally valid Facebook export whose single entry has content
and a timestamp but no sender_name field. -/
def exC5 : Json :=
  Json.obj [("messages", Json.arr
    [Json.obj [("content", Json.str "hi"), ("timestamp_ms", Json.num 1000)]])]

/-- An iMessage JSON row using the `message` alias instead of `text`. -/
def exC6json : List (String × Json) :=
  [("message", Json.str "hi"), ("timestamp", Json.str "2023-01-01 00:00:00"),
   ("sender", Json.str "Sam")]

/-- The same row as a CSV record. -/
def exC6csv : List (String × String) :=
  [("message", "hi"), ("timestamp", "2023-01-01 00:00:00"), ("sender", "Sam")]

/-- Two messages more than four hours apart (a conversation break). -/
def exC10 : DF := [mkMsg "a" 0 "A", mkMsg "b" 30000 "B"]

/-- A short two-party exchange for evaluating all eight signals. -/
def exC1 : DF := [mkMsg "hi" 0 "A", mkMsg "hey!" 120 "B"]

/- ===== Helper lemmas ===== -/

theorem sum_le_length_mul (l : List ℚ) (b : ℚ) (h : ∀ x ∈ l, x ≤ b) :
    l.sum ≤ (l.length : ℚ) * b := by
  induction l with
  | nil => simp
  | cons x xs ih =>
    have hx := h x (by simp)
    have hxs := ih (fun y hy => h y (by simp [hy]))
    simp only [List.sum_cons, List.length_cons]
    push_cast
    linarith

theorem length_mul_le_sum (l : List ℚ) (a : ℚ) (h : ∀ x ∈ l, a ≤ x) :
    (l.length : ℚ) * a ≤ l.sum := by
  induction l with
  | nil => simp
  | cons x xs ih =>
    have hx := h x (by simp)
    have hxs := ih (fun y hy => h y (by simp [hy]))
    simp only [List.sum_cons, List.length_cons]
    push_cast
    linarith

theorem qMean_le (l : List ℚ) (b : ℚ) (hne : l ≠ []) (h : ∀ x ∈ l, x ≤ b) :
    qMean l ≤ b := by
  have hlen : 0 < (l.length : ℚ) := by
    exact_mod_cast List.length_pos.mpr hne
  rw [qMean, div_le_iff₀ hlen]
  have := sum_le_length_mul l b h
  linarith

theorem le_qMean (l : List ℚ) (a : ℚ) (hne : l ≠ []) (h : ∀ x ∈ l, a ≤ x) :
    a ≤ qMean l := by
  have hlen : 0 < (l.length : ℚ) := by
    exact_mod_cast List.length_pos.mpr hne
  rw [qMean, le_div_iff₀ hlen]
  have := length_mul_le_sum l a h
  linarith

theorem qMean_nonneg (l : List ℚ) (h : ∀ x ∈ l, 0 ≤ x) : 0 ≤ qMean l := by
  unfold qMean
  exact div_nonneg (List.sum_nonneg h) (by positivity)

theorem lengthScoreOfRatio_nonneg (r : ℚ) (h : 0 ≤ r) :
    0 ≤ lengthScoreOfRatio r := by
  unfold lengthScoreOfRatio
  split_ifs with h1 h2
  · norm_num
  · linarith
  · have : (30:ℚ) ≤ max 30 (r * 140) := le_max_left _ _
    linarith

theorem questionScoreOfRatio_nonneg (r : ℚ) : 0 ≤ questionScoreOfRatio r := by
  unfold questionScoreOfRatio
  split_ifs with h1 h2 h3
  · norm_num
  · obtain ⟨h2a, h2b⟩ := h2
    linarith
  · obtain ⟨h3a, h3b⟩ := h3
    linarith
  · have : (20:ℚ) ≤ max 20 (60 * r) := le_max_left _ _
    linarith

theorem initiationScoreOfRatio_nonneg (r : ℚ) : 0 ≤ initiationScoreOfRatio r := by
  unfold initiationScoreOfRatio
  split_ifs with h1 h2 h3
  · norm_num
  · obtain ⟨h2a, h2b⟩ := h2
    linarith
  · obtain ⟨h3a, h3b⟩ := h3
    linarith
  · have : (30:ℚ) ≤ max 30 (r * 150) := le_max_left _ _
    linarith

theorem reciprocityScoreOfRatio_bounds (r : ℚ) :
    0 ≤ reciprocityScoreOfRatio r ∧ reciprocityScoreOfRatio r ≤ 100 := by
  unfold reciprocityScoreOfRatio
  split_ifs with h1 h2 h3
  · norm_num
  · obtain ⟨h2a, h2b⟩ := h2
    constructor <;> linarith
  · obtain ⟨h3a, h3b⟩ := h3
    constructor <;> linarith
  · constructor
    · have : (20:ℚ) ≤ max 20 (min 100 (r * 70)) := le_max_left _ _
      linarith
    · exact max_le (by norm_num) (min_le_left _ _)

theorem consistencyScoreOfCv_bounds (cv : ℚ) :
    30 ≤ consistencyScoreOfCv cv ∧ consistencyScoreOfCv cv ≤ 100 := by
  unfold consistencyScoreOfCv
  split_ifs with h1 h2
  · norm_num
  · push_neg at h1
    constructor <;> linarith
  · push_neg at h1 h2
    constructor
    · exact le_max_left _ _
    · exact max_le (by norm_num) (by linarith)

/- ===== Per-signal range lemmas ===== -/

theorem analyze_response_time_bounds (df : DF) (t : String) :
    0 ≤ (analyze_response_time df t).1 ∧ (analyze_response_time df t).1 ≤ 100 := by
  unfold analyze_response_time
  dsimp only
  split_ifs with h
  · exact ⟨by norm_num, by norm_num⟩
  · exact ⟨le_min (by norm_num) (le_max_left _ _), min_le_left _ _⟩

theorem analyze_message_length_bounds (df : DF) (t : String) :
    0 ≤ (analyze_message_length df t).1 ∧ (analyze_message_length df t).1 ≤ 100 := by
  unfold analyze_message_length
  dsimp only
  split_ifs with h _h2
  · exact ⟨by norm_num, by norm_num⟩
  all_goals
    refine ⟨le_min (by norm_num) (lengthScoreOfRatio_nonneg _ ?_), min_le_left _ _⟩
  all_goals
    refine div_nonneg (qMean_nonneg _ ?_) (le_trans (by norm_num) (le_max_right _ _))
  all_goals
    intro x hx
    simp only [List.mem_map] at hx
    obtain ⟨m, _, rfl⟩ := hx
    positivity

theorem analyze_emoji_usage_bounds (el : String → List String) (df : DF) (t : String) :
    0 ≤ (analyze_emoji_usage el df t).1 ∧ (analyze_emoji_usage el df t).1 ≤ 100 := by
  unfold analyze_emoji_usage
  dsimp only
  have hratio : (0:ℚ) ≤ ((((df.filter (fun m => m.sender == t)).map (fun m => m.text)).map
      (fun m => ((el m).filter (fun e => positive_emojis.contains e)).length)).sum : ℚ) /
      max (((((df.filter (fun m => m.sender == t)).map (fun m => m.text)).map
        (fun m => (el m).length)).sum : ℚ)) 1 :=
    div_nonneg (by positivity) (le_trans (by norm_num) (le_max_right _ _))
  split_ifs with h1 h2 h3 h4
  · exact ⟨by norm_num, by norm_num⟩
  all_goals
    exact ⟨le_min (by norm_num) (by nlinarith), min_le_left _ _⟩

theorem analyze_question_asking_bounds (df : DF) (t : String) :
    0 ≤ (analyze_question_asking df t).1 ∧ (analyze_question_asking df t).1 ≤ 100 := by
  unfold analyze_question_asking
  dsimp only
  split_ifs with h
  · exact ⟨by norm_num, by norm_num⟩
  · exact ⟨le_min (by norm_num) (questionScoreOfRatio_nonneg _), min_le_left _ _⟩

theorem analyze_conversation_initiation_bounds (df : DF) (t : String) :
    0 ≤ (analyze_conversation_initiation df t).1 ∧
      (analyze_conversation_initiation df t).1 ≤ 100 := by
  unfold analyze_conversation_initiation
  dsimp only
  split_ifs with h1 h2
  · exact ⟨by norm_num, by norm_num⟩
  · exact ⟨by norm_num, by norm_num⟩
  · exact ⟨le_min (by norm_num) (initiationScoreOfRatio_nonneg _), min_le_left _ _⟩

theorem analyze_enthusiasm_bounds (polarity : String → ℚ)
    (hpol : ∀ s, -1 ≤ polarity s ∧ polarity s ≤ 1) (df : DF) (t : String) :
    0 ≤ (analyze_enthusiasm polarity df t).1 ∧ (analyze_enthusiasm polarity df t).1 ≤ 100 := by
  unfold analyze_enthusiasm
  dsimp only
  split_ifs with h
  · exact ⟨by norm_num, by norm_num⟩
  · set their := (df.filter (fun m => m.sender == t)).map (fun m => m.text) with hth
    have hne : their.map polarity ≠ [] := by
      intro hcon
      apply h
      have := congrArg List.length hcon
      simpa using this
    have hub : qMean (their.map polarity) ≤ 1 := by
      refine qMean_le _ 1 hne ?_
      intro x hx
      simp only [List.mem_map] at hx
      obtain ⟨m, _, rfl⟩ := hx
      exact (hpol m).2
    have hlb : -1 ≤ qMean (their.map polarity) := by
      refine le_qMean _ (-1) hne ?_
      intro x hx
      simp only [List.mem_map] at hx
      obtain ⟨m, _, rfl⟩ := hx
      exact (hpol m).1
    have hr : (0:ℚ) ≤ ((their.map
        (fun m => (enthusiasm_markers.filter (fun mk => strContains (strLower m) mk)).length)).sum : ℚ) /
        (their.length : ℚ) := by positivity
    have h40a : (0:ℚ) ≤ min 40 (((their.map
        (fun m => (enthusiasm_markers.filter (fun mk => strContains (strLower m) mk)).length)).sum : ℚ) /
        (their.length : ℚ) * 100) := le_min (by norm_num) (by positivity)
    have h40b : min 40 (((their.map
        (fun m => (enthusiasm_markers.filter (fun mk => strContains (strLower m) mk)).length)).sum : ℚ) /
        (their.length : ℚ) * 100) ≤ 40 := min_le_left _ _
    constructor <;> linarith

theorem analyze_consistency_bounds (dailyStd : List ℕ → ℚ) (df : DF) (t : String) :
    0 ≤ (analyze_consistency dailyStd df t).1 ∧ (analyze_consistency dailyStd df t).1 ≤ 100 := by
  unfold analyze_consistency
  dsimp only
  split_ifs with h1 h2
  · exact ⟨by norm_num, by norm_num⟩
  · exact ⟨by norm_num, by norm_num⟩
  · exact ⟨by linarith [(consistencyScoreOfCv_bounds (dailyStd
        (dailyCounts (df.filter (fun m => m.sender == t))) /
        qMean ((dailyCounts (df.filter (fun m => m.sender == t))).map (fun n => (n : ℚ))))).1],
      (consistencyScoreOfCv_bounds _).2⟩

theorem analyze_reciprocity_bounds (df : DF) (t : String) :
    0 ≤ (analyze_reciprocity df t).1 ∧ (analyze_reciprocity df t).1 ≤ 100 := by
  unfold analyze_reciprocity
  dsimp only
  split_ifs with h1 h2 h3
  · exact ⟨by norm_num, by norm_num⟩
  · exact ⟨by norm_num, by norm_num⟩
  · exact ⟨by norm_num, by norm_num⟩
  · exact reciprocityScoreOfRatio_bounds _

/- ===== Frame post-state lemmas ===== -/

theorem analyze_response_time_post (df : DF) (t : String) :
    (analyze_response_time df t).2 = df := by
  unfold analyze_response_time
  dsimp only
  split_ifs <;> rfl

theorem analyze_message_length_post (df : DF) (t : String) :
    (analyze_message_length df t).2 = df := by
  unfold analyze_message_length
  dsimp only
  split_ifs <;> rfl

theorem analyze_emoji_usage_post (el : String → List String) (df : DF) (t : String) :
    (analyze_emoji_usage el df t).2 = df := by
  unfold analyze_emoji_usage
  dsimp only
  split_ifs <;> rfl

theorem analyze_question_asking_post (df : DF) (t : String) :
    (analyze_question_asking df t).2 = df := by
  unfold analyze_question_asking
  dsimp only
  split_ifs <;> rfl

theorem analyze_enthusiasm_post (polarity : String → ℚ) (df : DF) (t : String) :
    (analyze_enthusiasm polarity df t).2 = df := by
  unfold analyze_enthusiasm
  dsimp only
  split_ifs <;> rfl

theorem analyze_consistency_post (dailyStd : List ℕ → ℚ) (df : DF) (t : String) :
    (analyze_consistency dailyStd df t).2 = df := by
  unfold analyze_consistency
  dsimp only
  split_ifs <;> rfl

theorem analyze_reciprocity_post (df : DF) (t : String) :
    (analyze_reciprocity df t).2 = df := by
  unfold analyze_reciprocity
  dsimp only
  split_ifs <;> rfl

theorem analyze_conversation_initiation_post (df : DF) (t : String) :
    (analyze_conversation_initiation df t).2 =
      (if df.length < 2 then df else setTimeGaps df) := by
  unfold analyze_conversation_initiation
  dsimp only
  split_ifs <;> rfl

theorem calculate_overall_interest_post (polarity : String → ℚ)
    (emojiList : String → List String) (dailyStd : List ℕ → ℚ) (df : DF) (t : String) :
    (calculate_overall_interest polarity emojiList dailyStd df t).2 =
      (analyze_conversation_initiation df t).2 := by
  unfold calculate_overall_interest
  dsimp only
  rw [analyze_response_time_post, analyze_message_length_post, analyze_emoji_usage_post,
    analyze_question_asking_post, analyze_enthusiasm_post, analyze_consistency_post,
    analyze_reciprocity_post]

theorem overall_score_eq (polarity : String → ℚ) (emojiList : String → List String)
    (dailyStd : List ℕ → ℚ) (df : DF) (t : String) :
    overall_score polarity emojiList dailyStd df t =
      (analyze_response_time df t).1 * (18/100) + (analyze_message_length df t).1 * (12/100)
      + (analyze_emoji_usage emojiList df t).1 * (9/100)
      + (analyze_question_asking df t).1 * (10/100)
      + (analyze_conversation_initiation df t).1 * (15/100)
      + (analyze_enthusiasm polarity ((analyze_conversation_initiation df t).2) t).1 * (15/100)
      + (analyze_consistency dailyStd ((analyze_conversation_initiation df t).2) t).1 * (8/100)
      + (analyze_reciprocity ((analyze_conversation_initiation df t).2) t).1 * (13/100) := by
  unfold overall_score calculate_overall_interest
  dsimp only
  rw [analyze_response_time_post, analyze_message_length_post, analyze_emoji_usage_post,
    analyze_question_asking_post, analyze_enthusiasm_post, analyze_consistency_post]

/- ===== Claim theorems ===== -/

/-- C1: for every message sequence and target sender, each of the eight
signal scores (response_time, message_length, emoji_usage,
question_asking, conversation_initiation, enthusiasm, consistency,
reciprocity) and the overall weighted percentage lie in [0, 100]; the
enthusiasm score, the sum of a sentiment term and a marker term with no
final clamp of its own, is included.  The sentiment polarity is assumed
to stay in TextBlob's documented range [-1, 1]. -/
theorem c1_scores_and_overall_in_range (polarity : String → ℚ)
    (emojiList : String → List String) (dailyStd : List ℕ → ℚ)
    (hpol : ∀ s, -1 ≤ polarity s ∧ polarity s ≤ 1) (df : DF) (target : String) :
    (0 ≤ (analyze_response_time df target).1 ∧ (analyze_response_time df target).1 ≤ 100) ∧
    (0 ≤ (analyze_message_length df target).1 ∧ (analyze_message_length df target).1 ≤ 100) ∧
    (0 ≤ (analyze_emoji_usage emojiList df target).1 ∧
      (analyze_emoji_usage emojiList df target).1 ≤ 100) ∧
    (0 ≤ (analyze_question_asking df target).1 ∧ (analyze_question_asking df target).1 ≤ 100) ∧
    (0 ≤ (analyze_conversation_initiation df target).1 ∧
      (analyze_conversation_initiation df target).1 ≤ 100) ∧
    (0 ≤ (analyze_enthusiasm polarity df target).1 ∧
      (analyze_enthusiasm polarity df target).1 ≤ 100) ∧
    (0 ≤ (analyze_consistency dailyStd df target).1 ∧
      (analyze_consistency dailyStd df target).1 ≤ 100) ∧
    (0 ≤ (analyze_reciprocity df target).1 ∧ (analyze_reciprocity df target).1 ≤ 100) ∧
    (0 ≤ overall_score polarity emojiList dailyStd df target ∧
      overall_score polarity emojiList dailyStd df target ≤ 100) := by
  refine ⟨analyze_response_time_bounds df target, analyze_message_length_bounds df target,
    analyze_emoji_usage_bounds emojiList df target, analyze_question_asking_bounds df target,
    analyze_conversation_initiation_bounds df target,
    analyze_enthusiasm_bounds polarity hpol df target,
    analyze_consistency_bounds dailyStd df target, analyze_reciprocity_bounds df target, ?_⟩
  rw [overall_score_eq]
  have h1 := analyze_response_time_bounds df target
  have h2 := analyze_message_length_bounds df target
  have h3 := analyze_emoji_usage_bounds emojiList df target
  have h4 := analyze_question_asking_bounds df target
  have h5 := analyze_conversation_initiation_bounds df target
  have h6 := analyze_enthusiasm_bounds polarity hpol
    ((analyze_conversation_initiation df target).2) target
  have h7 := analyze_consistency_bounds dailyStd
    ((analyze_conversation_initiation df target).2) target
  have h8 := analyze_reciprocity_bounds ((analyze_conversation_initiation df target).2) target
  constructor <;>
    linarith [h1.1, h1.2, h2.1, h2.2, h3.1, h3.2, h4.1, h4.2, h5.1, h5.2, h6.1, h6.2,
      h7.1, h7.2, h8.1, h8.2]

/-- C1 witness: the neutral sentiment function is within TextBlob's
range, and on a concrete two-message exchange every signal and the
overall percentage land in [0, 100]. -/
theorem c1_witness :
    (∀ s, -1 ≤ pol0 s ∧ pol0 s ≤ 1) ∧
    ((0 ≤ (analyze_response_time exC1 "B").1 ∧ (analyze_response_time exC1 "B").1 ≤ 100) ∧
    (0 ≤ (analyze_message_length exC1 "B").1 ∧ (analyze_message_length exC1 "B").1 ≤ 100) ∧
    (0 ≤ (analyze_emoji_usage el0 exC1 "B").1 ∧ (analyze_emoji_usage el0 exC1 "B").1 ≤ 100) ∧
    (0 ≤ (analyze_question_asking exC1 "B").1 ∧ (analyze_question_asking exC1 "B").1 ≤ 100) ∧
    (0 ≤ (analyze_conversation_initiation exC1 "B").1 ∧
      (analyze_conversation_initiation exC1 "B").1 ≤ 100) ∧
    (0 ≤ (analyze_enthusiasm pol0 exC1 "B").1 ∧ (analyze_enthusiasm pol0 exC1 "B").1 ≤ 100) ∧
    (0 ≤ (analyze_consistency std0 exC1 "B").1 ∧ (analyze_consistency std0 exC1 "B").1 ≤ 100) ∧
    (0 ≤ (analyze_reciprocity exC1 "B").1 ∧ (analyze_reciprocity exC1 "B").1 ≤ 100) ∧
    (0 ≤ overall_score pol0 el0 std0 exC1 "B" ∧ overall_score pol0 el0 std0 exC1 "B" ≤ 100)) := by
  have hpol : ∀ s, -1 ≤ pol0 s ∧ pol0 s ≤ 1 := by
    intro s
    constructor <;> norm_num [pol0]
  exact ⟨hpol, c1_scores_and_overall_in_range pol0 el0 std0 hpol exC1 "B"⟩

/-- C9: the Instagram parser delegates entirely to the Facebook parser,
so the two produce exactly the same message sequence on every input. -/
theorem c9_instagram_delegates_to_facebook :
    ∀ data : Json, instagram_parse data = fb_parse data :=
  fun _ => rfl

/-- C2 counterexample: on two messages both from "A" with target "B"
(the target sent 0 messages, the other party sent some), the
reciprocity score is 20, not 0 as the claim states. -/
theorem c2_counterexample :
    (analyze_reciprocity exC2 "B").1 = 20 ∧ ((20:ℚ) ≠ 0) := by
  constructor
  · unfold analyze_reciprocity exC2
    simp [mkMsg]
    norm_num [reciprocityScoreOfRatio]
  · norm_num

/-- C2 (amended): with fewer than two messages the reciprocity default
is 50; when the non-target count is 0 (which under the length guard
forces at least two target messages) the score is 100; when the target
sent 0 of at least two messages the ratio-0 fall-through yields 20, not
0; and ten messages from each side (ratio 1.0) score 100. -/
theorem c2_reciprocity_degenerate_and_ideal (df : DF) (t : String) :
    (df.length < 2 → (analyze_reciprocity df t).1 = 50) ∧
    (2 ≤ df.length → (df.filter (fun m => m.sender == t)).length = df.length →
      (analyze_reciprocity df t).1 = 100) ∧
    (2 ≤ df.length → (df.filter (fun m => m.sender == t)).length = 0 →
      (analyze_reciprocity df t).1 = 20) ∧
    (analyze_reciprocity exC2big "B").1 = 100 := by
  refine ⟨?_, ?_, ?_, ?_⟩
  · intro h
    unfold analyze_reciprocity
    rw [if_pos h]
  · intro hlen hall
    unfold analyze_reciprocity
    dsimp only
    rw [hall, if_neg (by omega), if_pos (by omega), if_pos (by omega)]
  · intro hlen hzero
    unfold analyze_reciprocity
    dsimp only
    rw [hzero, if_neg (by omega), if_neg (by omega)]
    norm_num [reciprocityScoreOfRatio]
  · unfold analyze_reciprocity exC2big
    simp [mkMsg, List.replicate]
    norm_num [reciprocityScoreOfRatio]

/-- C2 witness: the amended statement evaluated on the two-message
sequence whose target sent nothing. -/
theorem c2_witness :
    2 ≤ exC2.length ∧ (exC2.filter (fun m => m.sender == "B")).length = 0 ∧
      (analyze_reciprocity exC2 "B").1 = 20 := by
  have hlen : 2 ≤ exC2.length := by simp [exC2]
  have hzero : (exC2.filter (fun m => m.sender == "B")).length = 0 := by
    simp [exC2, mkMsg]
  exact ⟨hlen, hzero, (c2_reciprocity_degenerate_and_ideal exC2 "B").2.2.1 hlen hzero⟩

/-- C3 counterexample: for a single 45-minute response, the code scores
80 - 15*0.67 = 69.95, while the claim's exact segment "linear from 80
down to 60" over 30-60 minutes gives 70 at 45 minutes. -/
theorem c3_counterexample :
    (analyze_response_time exC3 "B").1 = 1399/20 ∧
      respCurveSpec (qMean (responsePairs exC3 "B")) = 70 ∧ ((1399/20 : ℚ) ≠ 70) := by
  have hpairs : responsePairs exC3 "B" = [45] := by
    unfold responsePairs exC3
    simp [mkMsg]
    norm_num
  refine ⟨?_, ?_, by norm_num⟩
  · unfold analyze_response_time
    rw [hpairs]
    norm_num [qMean, responseScoreOfAvg]
  · rw [hpairs]
    norm_num [qMean, respCurveSpec]

/-- C3 (amended): the response-time signal averages the elapsed minutes
over every your-message immediately followed by a their-message and maps
the average by the code's piecewise curve with rounded slopes — below 5
minutes 100; 5-30 minutes 100 - (m-5)*0.8; 30-60 minutes
80 - (m-30)*0.67 (ending near 59.9, not exactly 60); 60-180 minutes
60 - (m-60)*0.17 (ending near 39.6, not exactly 40); above 180
max(20, 40 - (m-180)/60) — clamped to [0,100]; it returns the default
50.0 when no response pair exists, and the two-message example A then
target B two minutes later scores 100. -/
theorem c3_response_time_curve (df : DF) (t : String) :
    (responsePairs df t = [] → (analyze_response_time df t).1 = 50) ∧
    (responsePairs df t ≠ [] →
      (analyze_response_time df t).1 =
        min 100 (max 0 (responseScoreOfAvg (qMean (responsePairs df t))))) ∧
    (∀ a : ℚ, a < 5 → responseScoreOfAvg a = 100) ∧
    (∀ a : ℚ, 5 ≤ a → a < 30 → responseScoreOfAvg a = 100 - (a - 5) * (8/10)) ∧
    (∀ a : ℚ, 30 ≤ a → a < 60 → responseScoreOfAvg a = 80 - (a - 30) * (67/100)) ∧
    (∀ a : ℚ, 60 ≤ a → a < 180 → responseScoreOfAvg a = 60 - (a - 60) * (17/100)) ∧
    (∀ a : ℚ, 180 ≤ a → responseScoreOfAvg a = max 20 (40 - (a - 180) / 60)) ∧
    (analyze_response_time exC3fast "B").1 = 100 := by
  have hfast : responsePairs exC3fast "B" = [2] := by
    unfold responsePairs exC3fast
    simp [mkMsg]
    norm_num
  refine ⟨?_, ?_, ?_, ?_, ?_, ?_, ?_, ?_⟩
  · intro h
    unfold analyze_response_time
    dsimp only
    rw [if_pos h]
  · intro h
    unfold analyze_response_time
    dsimp only
    rw [if_neg h]
  · intro a h
    unfold responseScoreOfAvg
    rw [if_pos h]
  · intro a h1 h2
    unfold responseScoreOfAvg
    rw [if_neg (by linarith), if_pos h2]
  · intro a h1 h2
    unfold responseScoreOfAvg
    rw [if_neg (by linarith), if_neg (by linarith), if_pos h2]
  · intro a h1 h2
    unfold responseScoreOfAvg
    rw [if_neg (by linarith), if_neg (by linarith), if_neg (by linarith), if_pos h2]
  · intro a h
    unfold responseScoreOfAvg
    rw [if_neg (by linarith), if_neg (by linarith), if_neg (by linarith), if_neg (by linarith)]
  · unfold analyze_response_time
    rw [hfast]
    norm_num [qMean, responseScoreOfAvg]

/-- C3 witness: the amended mapping evaluated at the 45-minute example. -/
theorem c3_witness :
    responsePairs exC3 "B" ≠ [] ∧
      (analyze_response_time exC3 "B").1 =
        min 100 (max 0 (responseScoreOfAvg (qMean (responsePairs exC3 "B")))) ∧
      (30:ℚ) ≤ 45 ∧ (45:ℚ) < 60 ∧ responseScoreOfAvg 45 = 80 - (45 - 30) * (67/100) := by
  have hpairs : responsePairs exC3 "B" = [45] := by
    unfold responsePairs exC3
    simp [mkMsg]
    norm_num
  have hne : responsePairs exC3 "B" ≠ [] := by
    rw [hpairs]
    simp
  exact ⟨hne, (c3_response_time_curve exC3 "B").2.1 hne, by norm_num, by norm_num,
    (c3_response_time_curve exC3 "B").2.2.2.2.1 45 (by norm_num) (by norm_num)⟩

/- ===== Sorting contract lemmas ===== -/

theorem stableSort_contract : PandasSortContract stableSortByTs :=
  fun l => ⟨List.perm_insertionSort tsLE l, List.sorted_insertionSort tsLE l⟩

theorem tieReversingSorter_contract : PandasSortContract tieReversingSorter := by
  intro l
  constructor
  · exact (List.perm_insertionSort tsLE l.reverse).trans (List.reverse_perm l)
  · exact List.sorted_insertionSort tsLE l.reverse

/-- C4 counterexample: the pandas sort contract (default quicksort:
permutation, sorted, stability not guaranteed) does not force the loaded
sequence to keep the input order of equal timestamps — a contract-
satisfying sorter reverses the two equal-timestamp messages of `exC4`. -/
theorem c4_counterexample :
    ¬ (∀ sorter : DF → DF, PandasSortContract sorter →
        ∀ msgs : DF, load_messages sorter msgs = stableSortByTs msgs) := by
  intro hclaim
  have h := hclaim tieReversingSorter tieReversingSorter_contract exC4
  have hne : load_messages tieReversingSorter exC4 ≠ stableSortByTs exC4 := by
    unfold load_messages tieReversingSorter stableSortByTs exC4
    simp [mkMsg, tsLE, List.insertionSort, List.orderedInsert]
  exact hne h

/-- C4 (amended): for every list of messages, the sequence produced by
loading it is a permutation of the input sorted ascending by timestamp,
for any sorter meeting the documented contract of the default
`sort_values` kind; the relative order of equal timestamps is not
guaranteed (the stable sorter is merely one admissible behaviour). -/
theorem c4_load_sorted (sorter : DF → DF) (hs : PandasSortContract sorter) (msgs : DF) :
    (load_messages sorter msgs).Perm msgs ∧
      List.Sorted tsLE (load_messages sorter msgs) ∧ PandasSortContract stableSortByTs :=
  ⟨(hs msgs).1, (hs msgs).2, stableSort_contract⟩

/-- C4 witness: the amended statement evaluated with the stable sorter
on the concrete equal-timestamp input. -/
theorem c4_witness :
    PandasSortContract stableSortByTs ∧
      (load_messages stableSortByTs exC4).Perm exC4 ∧
      List.Sorted tsLE (load_messages stableSortByTs exC4) :=
  ⟨stableSort_contract, (c4_load_sorted stableSortByTs stableSort_contract exC4).1,
    (c4_load_sorted stableSortByTs stableSort_contract exC4).2.1⟩

/-- C5 counterexample: a structurally valid Facebook export whose single
entry has content and a timestamp but no sender_name raises a KeyError
to the caller instead of being skipped or defaulted, so an entry-level
anomaly can abort the parse. -/
theorem c5_counterexample :
    fb_parse exC5 = Except.error (PyErr.keyError "sender_name") := rfl

/-- C5 (amended): within a structurally valid file, WhatsApp lines that
fail the line match are skipped, Facebook entries without a content
field are skipped, and entries missing the sender under every alias get
the sentinel "Unknown" in the iMessage and Generic parsers — none of
these aborts the parse; however a Facebook entry that has content but
lacks `timestamp_ms` (or `sender_name`) raises a KeyError to the
caller. -/
theorem c5_anomaly_handling :
    (∀ waMatch stq (line : String) (lines : List String), waMatch line = Option.none →
      wa_parse waMatch stq (line :: lines) = wa_parse waMatch stq lines) ∧
    (∀ (fields : List (String × Json)) (rest : List Json),
      jLookup "content" fields = Option.none →
      fb_mapEntries (Json.obj fields :: rest) = fb_mapEntries rest) ∧
    (∀ stq (now : ℚ) (f : List (String × Json)),
      firstPresent f ["sender", "from"] = Option.none →
      (imessage_json_row stq now f).sender = "Unknown") ∧
    (∀ stq (now : ℚ) (r : List (String × String)),
      csvFirst r ["sender", "from"] = Option.none →
      (imessage_csv_row stq now r).sender = "Unknown") ∧
    (∀ stq (now : ℚ) (f : List (String × Json)),
      firstPresent f ["sender", "from", "author"] = Option.none →
      (generic_row stq now f).sender = "Unknown") ∧
    (∀ (fields : List (String × Json)) (cv : Json),
      jLookup "content" fields = some cv →
      jLookup "timestamp_ms" fields = Option.none →
      fb_entry (Json.obj fields) = Except.error (PyErr.keyError "timestamp_ms")) := by
  refine ⟨?_, ?_, ?_, ?_, ?_, ?_⟩
  · intro waMatch stq line lines h
    unfold wa_parse
    simp [List.filterMap_cons, wa_line, h]
  · intro fields rest h
    have hentry : fb_entry (Json.obj fields) = Except.ok Option.none := by
      unfold fb_entry
      simp [pyContainsStr, h]
    rcases hr : fb_mapEntries rest with e | ms <;>
      simp [fb_mapEntries, hentry, hr]
  · intro stq now f h
    unfold imessage_json_row
    simp [h, strOr]
  · intro stq now r h
    unfold imessage_csv_row
    simp [h]
  · intro stq now f h
    unfold generic_row
    simp [h, strOr]
  · intro fields cv hc ht
    unfold fb_entry
    cases cv <;> simp [pyContainsStr, hc, ht]

/-- C5 witness: the amended skip/default behaviours evaluated on
concrete inputs, together with the KeyError exception. -/
theorem c5_witness :
    wa_parse waM0 stq0 ["random line"] = wa_parse waM0 stq0 [] ∧
    fb_mapEntries [Json.obj [("sender_name", Json.str "A")]] = fb_mapEntries [] ∧
    (imessage_json_row stq0 0 [("text", Json.str "hi")]).sender = "Unknown" ∧
    fb_entry (Json.obj [("content", Json.str "x")]) =
      Except.error (PyErr.keyError "timestamp_ms") := by
  refine ⟨c5_anomaly_handling.1 waM0 stq0 "random line" [] rfl,
    c5_anomaly_handling.2.1 [("sender_name", Json.str "A")] [] ?_,
    c5_anomaly_handling.2.2.1 stq0 0 [("text", Json.str "hi")] ?_,
    c5_anomaly_handling.2.2.2.2.2 [("content", Json.str "x")] (Json.str "x") ?_ ?_⟩
  · simp [jLookup]
  · simp [firstPresent, jLookup]
  · simp [jLookup]
  · simp [jLookup]

/- ===== Alias-resolution lemmas for the iMessage shapes ===== -/

theorem jLookup_map_str (r : List (String × String)) (k : String) :
    jLookup k (r.map (fun p => (p.1, Json.str p.2))) = (csvLookup r k).map Json.str := by
  induction r with
  | nil => rfl
  | cons p rest ih =>
    unfold jLookup csvLookup
    dsimp only [List.map_cons]
    split_ifs with h
    · rfl
    · exact ih

theorem firstPresent_map_str (r : List (String × String)) (ks : List String) :
    firstPresent (r.map (fun p => (p.1, Json.str p.2))) ks = (csvFirst r ks).map Json.str := by
  induction ks with
  | nil => rfl
  | cons k rest ih =>
    unfold firstPresent csvFirst
    rw [jLookup_map_str]
    cases csvLookup r k
    · exact ih
    · rfl

theorem strOr_map_str (o : Option String) (d : String) :
    strOr (o.map Json.str) d = o.getD d := by
  cases o <;> rfl

/-- C6 counterexample: the same record parsed through the two iMessage
shapes resolves differently — the JSON path ignores the `message` alias
and yields empty text, the CSV path yields the message value. -/
theorem c6_counterexample :
    (imessage_json_row stq0 0 exC6json).text = "" ∧
      (imessage_csv_row stq0 0 exC6csv).text = "hi" ∧ ("" : String) ≠ "hi" := by
  refine ⟨?_, ?_, by simp⟩
  · simp [imessage_json_row, exC6json, jLookup, strOr]
  · simp [imessage_csv_row, exC6csv, csvFirst, csvLookup]

/-- C6 (amended): the two iMessage input shapes resolve the sender
aliases identically (`sender` then `from`, first present winning,
default "Unknown"), but only the CSV shape falls back from `text` to
`message` and from `timestamp` to `date`; the JSON shape takes text
solely from `text` (default '') and the time solely from `timestamp`. -/
theorem c6_alias_resolution :
    (∀ stq (now : ℚ) (r : List (String × String)),
      (imessage_csv_row stq now r).sender =
        (imessage_json_row stq now (r.map (fun p => (p.1, Json.str p.2)))).sender) ∧
    (∀ stq (now : ℚ) (r : List (String × String)) (v : String),
      csvLookup r "text" = Option.none → csvLookup r "message" = some v →
      (imessage_csv_row stq now r).text = v) ∧
    (∀ stq (now : ℚ) (f : List (String × Json)),
      jLookup "text" f = Option.none → (imessage_json_row stq now f).text = "") ∧
    (∀ stq (now : ℚ) (f : List (String × Json)),
      jLookup "timestamp" f = Option.none → (imessage_json_row stq now f).timestamp = now) ∧
    (∀ stq (now : ℚ) (r : List (String × String)) (s : String),
      csvLookup r "timestamp" = Option.none → csvLookup r "date" = some s →
      (imessage_csv_row stq now r).timestamp =
        imessage_parse_timestamp stq now (TsValue.str s)) := by
  refine ⟨?_, ?_, ?_, ?_, ?_⟩
  · intro stq now r
    unfold imessage_csv_row imessage_json_row
    dsimp only
    rw [firstPresent_map_str, strOr_map_str]
  · intro stq now r v h1 h2
    simp [imessage_csv_row, csvFirst, h1, h2]
  · intro stq now f h
    simp [imessage_json_row, h, strOr]
  · intro stq now f h
    simp [imessage_json_row, h, jTs, imessage_parse_timestamp]
  · intro stq now r s h1 h2
    simp [imessage_csv_row, csvFirst, h1, h2]

/-- C6 witness: the CSV fallback applied at a concrete row lacking a
`text` column. -/
theorem c6_witness :
    csvLookup exC6csv "text" = Option.none ∧ csvLookup exC6csv "message" = some "hi" ∧
      (imessage_csv_row stq0 0 exC6csv).text = "hi" := by
  have h1 : csvLookup exC6csv "text" = Option.none := by simp [exC6csv, csvLookup]
  have h2 : csvLookup exC6csv "message" = some "hi" := by simp [exC6csv, csvLookup]
  exact ⟨h1, h2, c6_alias_resolution.2.1 stq0 0 exC6csv "hi" h1 h2⟩

/-- C7 counterexample: a hint containing "whatsapp" does not always
yield the WhatsApp parser — "ig whatsapp" contains the earlier-checked
substring "ig" and selects the Instagram parser. -/
theorem c7_counterexample :
    strContains (strLower "ig whatsapp") "whatsapp" = true ∧
      getParser (some "ig whatsapp") "chat.txt" Option.none = ParserKind.instagram ∧
      ParserKind.instagram ≠ ParserKind.whatsapp := by
  refine ⟨by decide, by decide, by decide⟩

/-- C7 (amended): a platform hint containing "whatsapp"
(case-insensitively) and none of the earlier-checked substrings
(facebook, messenger, instagram, ig, imessage, apple) yields the
WhatsApp parser regardless of file extension; a hint matching none of
the known substrings raises no error and falls through to extension
detection; with no hint, a .txt path yields WhatsApp, a .csv path
iMessage, and a .json path Facebook exactly when the loaded top level is
an object with a `messages` key, Generic otherwise (including when the
peek load fails). -/
theorem c7_parser_selection :
    (∀ (p path : String) (fj : Option Json),
      strContains (strLower p) "facebook" = false →
      strContains (strLower p) "messenger" = false →
      strContains (strLower p) "instagram" = false →
      strContains (strLower p) "ig" = false →
      strContains (strLower p) "imessage" = false →
      strContains (strLower p) "apple" = false →
      strContains (strLower p) "whatsapp" = true →
      getParser (some p) path fj = ParserKind.whatsapp) ∧
    (∀ (p path : String) (fj : Option Json),
      strContains (strLower p) "facebook" = false →
      strContains (strLower p) "messenger" = false →
      strContains (strLower p) "instagram" = false →
      strContains (strLower p) "ig" = false →
      strContains (strLower p) "imessage" = false →
      strContains (strLower p) "apple" = false →
      strContains (strLower p) "whatsapp" = false →
      getParser (some p) path fj = getParser Option.none path fj) ∧
    (∀ (path : String) (fj : Option Json), strEndsWith path ".txt" = true →
      getParser Option.none path fj = ParserKind.whatsapp) ∧
    (∀ (path : String) (fj : Option Json), strEndsWith path ".txt" = false →
      strEndsWith path ".json" = false → strEndsWith path ".csv" = true →
      getParser Option.none path fj = ParserKind.imessage) ∧
    (∀ (path : String) (f : List (String × Json)), strEndsWith path ".txt" = false →
      strEndsWith path ".json" = true →
      getParser Option.none path (some (Json.obj f)) =
        (if (jLookup "messages" f).isSome then ParserKind.facebook else ParserKind.generic)) ∧
    (∀ (path : String), strEndsWith path ".txt" = false →
      strEndsWith path ".json" = true →
      getParser Option.none path Option.none = ParserKind.generic) := by
  refine ⟨?_, ?_, ?_, ?_, ?_, ?_⟩
  · intro p path fj h1 h2 h3 h4 h5 h6 h7
    unfold getParser
    dsimp only
    simp [h1, h2, h3, h4, h5, h6, h7]
  · intro p path fj h1 h2 h3 h4 h5 h6 h7
    unfold getParser
    dsimp only
    simp [h1, h2, h3, h4, h5, h6, h7]
  · intro path fj h
    simp [getParser, get_parser_auto, h]
  · intro path fj h1 h2 h3
    simp [getParser, get_parser_auto, h1, h2, h3]
  · intro path f h1 h2
    simp [getParser, get_parser_auto, h1, h2]
  · intro path h1 h2
    simp [getParser, get_parser_auto, h1, h2]

/-- C7 witness: the exact hint "whatsapp" (which contains none of the
earlier substrings) selects the WhatsApp parser even on a .json path. -/
theorem c7_witness :
    strContains (strLower "whatsapp") "ig" = false ∧
      getParser (some "whatsapp") "export.json" Option.none = ParserKind.whatsapp := by
  refine ⟨by decide, ?_⟩
  exact c7_parser_selection.1 "whatsapp" "export.json" Option.none
    (by decide) (by decide) (by decide) (by decide) (by decide) (by decide) (by decide)

/-- C8 counterexample: the iMessage timestamp parser does not interpret
a numeric value as epoch seconds — every strptime attempt raises, so the
numeric input 1000000 falls back to the wall clock (here 0). -/
theorem c8_counterexample :
    imessage_parse_timestamp stq0 0 (TsValue.num 1000000) = 0 ∧ ((0:ℚ) ≠ 1000000) :=
  ⟨rfl, by norm_num⟩

/-- C8 (amended): both loosely-typed timestamp parsers try their fixed
format list in priority order and return the first successful match, and
default an unmatched string to the current wall-clock time; but only the
Generic JSON parser interprets a numeric value as seconds-based Unix
epoch time — the iMessage parser lets every strptime attempt raise on a
number and falls back to the current time. -/
theorem c8_timestamp_parsing :
    (∀ stq (now x : ℚ), generic_parse_timestamp stq now (TsValue.num x) = x) ∧
    (∀ stq (now x : ℚ), imessage_parse_timestamp stq now (TsValue.num x) = now) ∧
    (∀ stq (s f : String) (fs : List String) (t : ℚ), stq s f = some t →
      tryFormats stq s (f :: fs) = some t) ∧
    (∀ stq (s f : String) (fs : List String), stq s f = Option.none →
      tryFormats stq s (f :: fs) = tryFormats stq s fs) ∧
    (∀ stq (now : ℚ) (s : String), tryFormats stq s imessage_formats = Option.none →
      imessage_parse_timestamp stq now (TsValue.str s) = now) ∧
    (∀ stq (now : ℚ) (s : String) (t : ℚ), tryFormats stq s imessage_formats = some t →
      imessage_parse_timestamp stq now (TsValue.str s) = t) ∧
    (∀ stq (now : ℚ) (s : String), tryFormats stq s generic_formats = Option.none →
      generic_parse_timestamp stq now (TsValue.str s) = now) ∧
    (∀ stq (now : ℚ) (s : String) (t : ℚ), tryFormats stq s generic_formats = some t →
      generic_parse_timestamp stq now (TsValue.str s) = t) := by
  refine ⟨fun stq now x => rfl, fun stq now x => rfl, ?_, ?_, ?_, ?_, ?_, ?_⟩
  · intro stq s f fs t h
    unfold tryFormats
    rw [h]
  · intro stq s f fs h
    simp only [tryFormats]
    rw [h]
  · intro stq now s h
    simp [imessage_parse_timestamp, h]
  · intro stq now s t h
    simp [imessage_parse_timestamp, h]
  · intro stq now s h
    simp [generic_parse_timestamp, h]
  · intro stq now s t h
    simp [generic_parse_timestamp, h]

/-- C8 witness: the amended behaviours evaluated with a strptime that
rejects everything and wall clock 5. -/
theorem c8_witness :
    generic_parse_timestamp stq0 5 (TsValue.num 77) = 77 ∧
    imessage_parse_timestamp stq0 5 (TsValue.num 77) = 5 ∧
    tryFormats stq0 "2023-01-01 00:00:00" imessage_formats = Option.none ∧
    imessage_parse_timestamp stq0 5 (TsValue.str "2023-01-01 00:00:00") = 5 := by
  have ht : tryFormats stq0 "2023-01-01 00:00:00" imessage_formats = Option.none := by
    simp [tryFormats, stq0, imessage_formats]
  exact ⟨c8_timestamp_parsing.1 stq0 5 77, c8_timestamp_parsing.2.1 stq0 5 77, ht,
    c8_timestamp_parsing.2.2.2.2.1 stq0 5 "2023-01-01 00:00:00" ht⟩

/- ===== Gap-column lemmas ===== -/

theorem gapsAux_map_stripGap (p : Msg) (l : List Msg) :
    (gapsAux p l).map stripGap = l.map stripGap := by
  induction l generalizing p with
  | nil => rfl
  | cons m rest ih =>
    simp [gapsAux, stripGap, ih]

theorem setTimeGaps_map_stripGap (df : DF) :
    (setTimeGaps df).map stripGap = df.map stripGap := by
  cases df with
  | nil => rfl
  | cons m rest => simp [setTimeGaps, stripGap, gapsAux_map_stripGap]

/-- C10 counterexample: the aggregator does not leave the caller's
sequence unchanged — after `calculate_overall_interest` on a
two-message sequence, the frame carries the appended `time_gap` column
written by its conversation-initiation sub-call. -/
theorem c10_counterexample :
    (calculate_overall_interest pol0 el0 std0 exC10 "B").2 ≠ exC10 := by
  rw [calculate_overall_interest_post, analyze_conversation_initiation_post]
  unfold exC10
  simp [mkMsg, setTimeGaps, gapsAux]

/-- C10 (amended): no signal computation mutates the message sequence
except the conversation-initiation computation, which appends the
derived inter-arrival gap field and leaves the underlying message data
intact; the aggregator leaves the sequence as its initiation sub-call
does — with the `time_gap` column appended (so not unchanged). -/
theorem c10_frame_effects (polarity : String → ℚ) (emojiList : String → List String)
    (dailyStd : List ℕ → ℚ) (df : DF) (t : String) :
    (analyze_response_time df t).2 = df ∧
    (analyze_message_length df t).2 = df ∧
    (analyze_emoji_usage emojiList df t).2 = df ∧
    (analyze_question_asking df t).2 = df ∧
    (analyze_enthusiasm polarity df t).2 = df ∧
    (analyze_consistency dailyStd df t).2 = df ∧
    (analyze_reciprocity df t).2 = df ∧
    (analyze_conversation_initiation df t).2 =
      (if df.length < 2 then df else setTimeGaps df) ∧
    (setTimeGaps df).map stripGap = df.map stripGap ∧
    (calculate_overall_interest polarity emojiList dailyStd df t).2 =
      (analyze_conversation_initiation df t).2 :=
  ⟨analyze_response_time_post df t, analyze_message_length_post df t,
    analyze_emoji_usage_post emojiList df t, analyze_question_asking_post df t,
    analyze_enthusiasm_post polarity df t, analyze_consistency_post dailyStd df t,
    analyze_reciprocity_post df t, analyze_conversation_initiation_post df t,
    setTimeGaps_map_stripGap df,
    calculate_overall_interest_post polarity emojiList dailyStd df t⟩

end DSLM
